import Mathlib

/-!
Verification development for the `mca-copilot` Telegram bot
(`src/copilot.py`).

The bot is shallowly embedded: Python values flowing through the handlers
are modelled by the `Json` type (JSON numbers are split into `int` and
`float`; float arithmetic and display are modelled over `Rat`), Python
exceptions by `Except PyErr`, and the side effects of a handler (replies
sent to the chat and outbound HTTP requests, in order) by a trace of `Ev`
events.  The two network calls the bot can make are resolved against a
`World` record giving the outcome (exception, or status plus parsed body)
of each endpoint.  Each Lean definition mirrors one Python definition of
`src/copilot.py`, preserving evaluation order and the exact reply strings.
-/

/-- Python exceptions that the formatter code can raise, by class. -/
inductive PyErr where
  | attrError
  | typeError
  | valueError
deriving DecidableEq

/-- Parsed JSON values as produced by `r.json()` in Python: JSON numbers
become `int` or `float` (floats modelled as rationals). -/
inductive Json where
  | null
  | bool (b : Bool)
  | int (i : Int)
  | float (q : Rat)
  | str (s : String)
  | arr (elems : List Json)
  | obj (fields : List (String × Json))

/-- Python truthiness (`bool(v)`) for the modelled values. -/
def Json.truthy : Json → Bool
  | .null => false
  | .bool b => b
  | .int i => i != 0
  | .float q => q != 0
  | .str s => s != ""
  | .arr xs => !xs.isEmpty
  | .obj kvs => !kvs.isEmpty

/-- First-match association-list lookup; models indexing a Python dict
(whose keys are unique). -/
def lookupJ (k : String) : List (String × Json) → Option Json
  | [] => none
  | (k', v) :: rest => if k' = k then some v else lookupJ k rest

/-- Python `x.get(k, d)`: succeeds on dicts, raises `AttributeError` on
every other value (which is how the bot's formatter crashes on
non-dict analyzer data). -/
def pyGetD (j : Json) (k : String) (d : Json) : Except PyErr Json :=
  match j with
  | .obj kvs => .ok ((lookupJ k kvs).getD d)
  | _ => .error .attrError

/-- Decimal digits of the proper fraction `fp / d` (for `str(float)`),
with enough fuel for any double. -/
def fracDigits : Nat → Nat → Nat → String
  | 0, _, _ => ""
  | n + 1, fp, d =>
    if fp = 0 then ""
    else toString (fp * 10 / d) ++ fracDigits n (fp * 10 % d) d

/-- Model of Python `str(f)` for a float, over the rational model,
computed on the (reduced) numerator and denominator. -/
def floatStr (q : Rat) : String :=
  let sgn := if q.num < 0 then "-" else ""
  let ip := q.num.natAbs / q.den
  let fp := q.num.natAbs % q.den
  sgn ++ toString ip ++ "." ++ (if fp = 0 then "0" else fracDigits 17 fp q.den)

mutual

/-- Model of Python `repr` on the modelled values (string escaping inside
nested `repr`s is not modelled). -/
def pyRepr : Json → String
  | .null => "None"
  | .bool true => "True"
  | .bool false => "False"
  | .int i => toString i
  | .float q => floatStr q
  | .str s => "'" ++ s ++ "'"
  | .arr xs => "[" ++ pyReprElems xs ++ "]"
  | .obj kvs => "\x7b" ++ pyReprFields kvs ++ "\x7d"

/-- `repr` of the elements of a Python list, comma separated. -/
def pyReprElems : List Json → String
  | [] => ""
  | [x] => pyRepr x
  | x :: y :: rest => pyRepr x ++ ", " ++ pyReprElems (y :: rest)

/-- `repr` of the items of a Python dict, comma separated. -/
def pyReprFields : List (String × Json) → String
  | [] => ""
  | [(k, v)] => "'" ++ k ++ "': " ++ pyRepr v
  | (k, v) :: y :: rest => "'" ++ k ++ "': " ++ pyRepr v ++ ", " ++ pyReprFields (y :: rest)

end

/-- Model of Python `str(v)` as used inside f-strings: identity on
strings, `repr` otherwise. -/
def pyStr : Json → String
  | .str s => s
  | j => pyRepr j

/-- Two-digit zero padding for the cents part of a `.2f` format. -/
def pad2 (n : Nat) : String := if n < 10 then "0" ++ toString n else toString n

/-- `|q| * 100` rounded to the nearest natural number, ties to even (the
rounding of Python's `format`), computed on the reduced fraction:
`|q| * 100 = (100 * q.num.natAbs) / q.den`. -/
def roundHalfEvenNN (q : Rat) : Nat :=
  let n := 100 * q.num.natAbs
  let fl := n / q.den
  let rem := n % q.den
  if q.den < 2 * rem then fl + 1
  else if 2 * rem < q.den then fl
  else if fl % 2 = 0 then fl else fl + 1

/-- Model of Python `f"\x7bv:.2f\x7d"` on a number, over the rational model. -/
def fmt2 (q : Rat) : String :=
  let sgn := if q.num < 0 then "-" else ""
  let n := roundHalfEvenNN q
  sgn ++ toString (n / 100) ++ "." ++ pad2 (n % 100)

/-- `nice_pct` (copilot.py line 28): em dash for `None`, otherwise the
value formatted `.2f` with a percent sign; a `bool` formats as its
integer value, any other type raises. -/
def nice_pct : Json → Except PyErr String
  | .null => .ok "—"
  | .int i => .ok (fmt2 (mkRat i 1) ++ "%")
  | .float q => .ok (fmt2 q ++ "%")
  | .bool b => .ok (fmt2 (mkRat (if b then 1 else 0) 1) ++ "%")
  | _ => .error .valueError

/-- One token of the compiled pattern: a literal character or a character
class. -/
inductive RTok where
  | lit (c : Char)
  | cls (p : Char → Bool)

/-- `re.fullmatch` for a linear pattern: the whole character list must be
consumed, one token per character. -/
def reFullmatch : List RTok → List Char → Bool
  | [], [] => true
  | [], _ :: _ => false
  | _ :: _, [] => false
  | .lit a :: ts, c :: cs => (a == c) && reFullmatch ts cs
  | .cls p :: ts, c :: cs => p c && reFullmatch ts cs

/-- The character class `[a-fA-F0-9]`. -/
def isHexDig (c : Char) : Bool :=
  ('a' ≤ c && c ≤ 'f') || ('A' ≤ c && c ≤ 'F') || ('0' ≤ c && c ≤ '9')

/-- `ETH_ADDR_RE` (copilot.py line 17): the pattern
`^0x[a-fA-F0-9]\x7b40\x7d$` as a token list (`^`/`$` are redundant under
`fullmatch`). -/
def ETH_ADDR_RE : List RTok :=
  .lit '0' :: .lit 'x' :: List.replicate 40 (.cls isHexDig)

/-- The characters removed by Python `str.strip()` (the ASCII whitespace
characters; exotic Unicode space code points are not modelled). -/
def isPySpace (c : Char) : Bool :=
  c == ' ' || c == '\t' || c == '\n' || c == '\r' ||
    c == Char.ofNat 11 || c == Char.ofNat 12

/-- Python `s.strip()`: drop leading and trailing whitespace. -/
def pyStrip (s : List Char) : List Char :=
  ((s.dropWhile isPySpace).reverse.dropWhile isPySpace).reverse

/-- The Address Validator: `ETH_ADDR_RE.fullmatch(text)` applied to the
stripped text, as in `address_msg` (copilot.py lines 68-69). -/
def addressValid (s : String) : Bool :=
  reFullmatch ETH_ADDR_RE (pyStrip s.data)

/-- Python `s.rstrip("/")`. -/
def rstripSlash (s : String) : String :=
  String.mk ((s.data.reverse.dropWhile (· == '/')).reverse)

/-- `MCA_URL` (copilot.py line 14): the environment value (absent → `""`)
with trailing slashes removed. -/
def MCA_URL (env : Option String) : String := rstripSlash (env.getD "")

/-- One observable effect of a handler: a chat reply, or an outbound HTTP
request (with its timeout in seconds). -/
inductive Ev where
  | reply (msg : String)
  | get (url : String) (timeout : Nat)
  | post (url : String) (chain : String) (addr : String) (timeout : Nat)
deriving DecidableEq

/-- Outcome of one outbound HTTP request: an exception (network error or
timeout), or a response with a status code and the result of `r.json()`
(`none` when the body is not valid JSON). -/
inductive Net where
  | exn
  | resp (status : Nat) (body : Option Json)

/-- The network environment a handler runs against: the outcome of
`GET /health` and of `POST /analyze`. -/
structure World where
  health : Net
  analyzeResp : Net

/-- `HELP_TEXT` (copilot.py lines 19-26). -/
def HELP_TEXT : String :=
  "👋 *Meme Coin Analyser*\n\n• Send me a BSC token contract address (starts with `0x`)\n• I’ll reply with a summary score.\n\nCommands:\n• /status — Check connection to the analyser\n• /help — Show this help"

/-- The format-hint reply of `address_msg` (copilot.py line 70). -/
def hintMsg : String := "Please send a *BSC token address* (format: `0x...40 hex chars`)."

/-- The acknowledgement reply of `address_msg` (copilot.py line 73). -/
def analyzingMsg : String := "⏳ Analyzing…"

/-- The generic failure reply of `address_msg` (copilot.py line 76). -/
def failMsg : String := "❌ Sorry, couldn’t analyze. Check logs or try again."

/-- The reply of `status_cmd` when the analyzer is reachable. -/
def statusUpMsg : String := "✅ Analyzer online"

/-- The reply of `status_cmd` when the analyzer is not reachable. -/
def statusDownMsg : String := "❌ Analyzer not reachable. Check MCA_URL on Railway."

/-- `ping_analyzer` (copilot.py lines 31-40): `false` immediately when
`MCA_URL` is empty; otherwise one `GET <url>/health` with a 10s timeout,
and the result of `r.status_code == 200 and r.json().get("ok") is True`
with every exception (network error, JSON parse error, `.get` on a
non-dict) caught and turned into `false`. -/
def ping_analyzer (env : Option String) (w : World) : List Ev × Bool :=
  let url := MCA_URL env
  if url = "" then ([], false)
  else
    ([.get (url ++ "/health") 10],
      match w.health with
      | .exn => false
      | .resp st body =>
        if st = 200 then
          match body with
          | some (.obj kvs) =>
            match lookupJ "ok" kvs with
            | some (.bool true) => true
            | _ => false
          | _ => false
        else false)

/-- `analyze_address` (copilot.py lines 42-51): one
`POST <MCA_URL>/analyze` with body `\x7bchain: "bsc", address\x7d` and a
30s timeout; the parsed body on HTTP 200, `none` on any other status, any
exception caught (and logged), yielding `none`. -/
def analyze_address (env : Option String) (w : World) (addr : String) :
    List Ev × Option Json :=
  ([.post (MCA_URL env ++ "/analyze") "bsc" addr 30],
    match w.analyzeResp with
    | .exn => none
    | .resp st body => if st = 200 then body else none)

/-- `start_cmd` (copilot.py lines 54-55): replies with the help text. -/
def start_cmd : List Ev := [.reply HELP_TEXT]

/-- `help_cmd` (copilot.py lines 57-58): replies with the help text. -/
def help_cmd : List Ev := [.reply HELP_TEXT]

/-- `status_cmd` (copilot.py lines 60-65): pings the analyzer and reports
reachability. -/
def status_cmd (env : Option String) (w : World) : List Ev :=
  let r := ping_analyzer env w
  r.1 ++ [.reply (if r.2 then statusUpMsg else statusDownMsg)]

/-- Python `impact > 0` under the formatter's use: numbers compare
normally, `bool` counts as its integer value, any other type raises
`TypeError`. -/
def pyCmpGtZ : Json → Except PyErr Bool
  | .int i => .ok (0 < i)
  | .float q => .ok (0 < q)
  | .bool b => .ok b
  | _ => .error .typeError

/-- Python `impact < 0` under the formatter's use. -/
def pyCmpLtZ : Json → Except PyErr Bool
  | .int i => .ok (i < 0)
  | .float q => .ok (q < 0)
  | .bool _ => .ok false
  | _ => .error .typeError

/-- The glyph expression of copilot.py line 94:
`"🟢" if impact > 0 else ("🔴" if impact < 0 else "⚪")`. -/
def glyph (impact : Json) : Except PyErr String := do
  if ← pyCmpGtZ impact then .ok "🟢"
  else if ← pyCmpLtZ impact then .ok "🔴"
  else .ok "⚪"

/-- The evidence expression of copilot.py line 95:
`"; ".join(f.get("evidence", [])[:1]) or ""` applied to the evidence
value.  A list yields its first element (which must be a string), a
string yields its first character, anything else fails to slice or to
join. -/
def evStr : Json → Except PyErr String
  | .arr [] => .ok ""
  | .arr (.str s :: _) => .ok s
  | .arr (_ :: _) => .error .typeError
  | .str s => .ok (String.mk (s.data.take 1))
  | _ => .error .typeError

/-- One iteration of the factor loop (copilot.py lines 92-96), in the
source's evaluation order: impact, glyph, evidence, id. -/
def factorLine (f : Json) : Except PyErr String := do
  let impact ← pyGetD f "impact" (.int 0)
  let em ← glyph impact
  let evj ← pyGetD f "evidence" (.arr [])
  let ev ← evStr evj
  let idv ← pyGetD f "id" (.str "?")
  .ok (em ++ " " ++ pyStr idv ++ " — " ++ ev)

/-- Run the loop body over each element in order, stopping at the first
exception — the semantics of a Python `for` that appends per iteration. -/
def eachLine (g : Json → Except PyErr String) : List Json → Except PyErr (List String)
  | [] => .ok []
  | f :: fs => do
    let s ← g f
    let rest ← eachLine g fs
    .ok (s :: rest)

/-- The factor loop `for f in factors[:5]` (copilot.py line 92) on the
(truthy-or-defaulted) factors value.  A truthy non-list value fails: a
nonempty string iterates one-character strings whose `.get` raises
`AttributeError`, anything else fails to slice. -/
def factorLines : Json → Except PyErr (List String)
  | .arr fs => eachLine factorLine (fs.take 5)
  | .str s =>
    match s.data with
    | [] => .ok []
    | _ :: _ => .error .attrError
  | _ => .error .typeError

/-- The liquidity block (copilot.py lines 98-105): emitted only when the
liquidity value is truthy. -/
def liqLines (liq : Json) : Except PyErr (List String) :=
  if liq.truthy = false then .ok []
  else do
    let dex ← pyGetD liq "dex" (.str "?")
    let pr ← pyGetD liq "pair" (.str "—")
    let lp ← pyGetD liq "lp_locked_pct" (.int 0)
    let lk ← pyGetD liq "locker" (.str "—")
    .ok ["", "*Liquidity:*", "DEX: " ++ pyStr dex, "Pair: `" ++ pyStr pr ++ "`",
      "LP locked: " ++ pyStr lp ++ "% via " ++ pyStr lk]

/-- The supply block (copilot.py lines 106-113): emitted only when the
supply value is truthy. -/
def supplyLines (supply : Json) : Except PyErr (List String) :=
  if supply.truthy = false then .ok []
  else do
    let tot ← pyGetD supply "total" (.str "—")
    let dw ← pyGetD supply "dead_wallet_pct" .null
    let dws ← nice_pct dw
    let t10 ← pyGetD supply "top10_pct" .null
    let t10s ← nice_pct t10
    .ok ["", "*Supply:*", "Total: " ++ pyStr tot, "Dead wallet: " ++ dws,
      "Top10: " ++ t10s]

/-- The `lines` list of `address_msg` (copilot.py lines 79-113), in the
source's evaluation order, as a list of lines or the first exception
raised. -/
def buildLines (data : Json) : Except PyErr (List String) := do
  let token ← pyGetD data "token" (.obj [])
  let liq0 ← pyGetD data "liquidity" (.obj [])
  let liq := if liq0.truthy then liq0 else .obj []
  let supply0 ← pyGetD data "supply" (.obj [])
  let supply := if supply0.truthy then supply0 else .obj []
  let f0 ← pyGetD data "factors" (.arr [])
  let factors := if f0.truthy then f0 else .arr []
  let nm ← pyGetD token "name" (.str "?")
  let sym ← pyGetD token "symbol" (.str "?")
  let addr ← pyGetD token "address" (.str "?")
  let sc ← pyGetD data "score" (.str "?")
  let bd ← pyGetD data "band" (.str "?")
  let fls ← factorLines factors
  let ll ← liqLines liq
  let sl ← supplyLines supply
  .ok (["*" ++ pyStr nm ++ "* (" ++ pyStr sym ++ ")",
      "`" ++ pyStr addr ++ "`",
      "",
      "*Score:* " ++ pyStr sc ++ "  •  *Band:* " ++ pyStr bd,
      "",
      "*Key factors:*"] ++ fls ++ ll ++ sl)

/-- The final reply text of `address_msg`: `"\n".join(lines)`. -/
def buildMessage (data : Json) : Except PyErr String :=
  (buildLines data).map (String.intercalate "\n")

/-- `address_msg` (copilot.py lines 67-115): the full free-text handler.
Returns the events it emits, in order, and the exception it raises, if
any (`python-telegram-bot` would catch such an exception outside the
handler; the handler itself then sends no final reply). -/
def address_msg (env : Option String) (txt : Option String) (w : World) :
    List Ev × Option PyErr :=
  let t := pyStrip (txt.getD "").data
  if reFullmatch ETH_ADDR_RE t = false then ([.reply hintMsg], none)
  else
    let r := analyze_address env w (String.mk t)
    match r.2 with
    | none => (.reply analyzingMsg :: r.1 ++ [.reply failMsg], none)
    | some j =>
      if j.truthy = false then (.reply analyzingMsg :: r.1 ++ [.reply failMsg], none)
      else
        match buildMessage j with
        | .ok m => (.reply analyzingMsg :: r.1 ++ [.reply m], none)
        | .error e => (.reply analyzingMsg :: r.1, some e)

/-- A numeric-enough impact value: one the glyph conditional accepts. -/
def wfNum : Json → Bool
  | .int _ => true
  | .float _ => true
  | .bool _ => true
  | _ => false

/-- A value `nice_pct` accepts. -/
def wfPctV : Json → Bool
  | .null => true
  | .int _ => true
  | .float _ => true
  | .bool _ => true
  | _ => false

/-- An evidence value the evidence expression accepts. -/
def wfEvid : Json → Bool
  | .arr [] => true
  | .arr (.str _ :: _) => true
  | .str _ => true
  | _ => false

/-- A factor entry the loop body formats without raising. -/
def wfFactor (f : Json) : Bool :=
  match f with
  | .obj kvs =>
    wfNum ((lookupJ "impact" kvs).getD (.int 0)) &&
      wfEvid ((lookupJ "evidence" kvs).getD (.arr []))
  | _ => false

/-- A supply object whose percentage fields `nice_pct` accepts. -/
def wfSupplyObj : Json → Bool
  | .obj kvs =>
    wfPctV ((lookupJ "dead_wallet_pct" kvs).getD .null) &&
      wfPctV ((lookupJ "top10_pct" kvs).getD .null)
  | _ => false

/-- An analyzer response the formatter renders without raising: a dict
whose `token` is a dict (when present), whose `liquidity` is a dict when
truthy, whose `supply` is a well-formed dict when truthy, and whose
`factors` is a list of well-formed entries (in its first five) when
truthy. -/
def wfResp : Json → Bool
  | .obj kvs =>
    (match (lookupJ "token" kvs).getD (.obj []) with
      | .obj _ => true
      | _ => false) &&
    (let l := (lookupJ "liquidity" kvs).getD (.obj [])
     !l.truthy ||
       (match l with
         | .obj _ => true
         | _ => false)) &&
    (let s := (lookupJ "supply" kvs).getD (.obj [])
     !s.truthy || wfSupplyObj s) &&
    (let f := (lookupJ "factors" kvs).getD (.arr [])
     !f.truthy ||
       (match f with
         | .arr fs => (fs.take 5).all wfFactor
         | _ => false))
  | _ => false

/-- `p` occurs at the head of `s`. -/
def leadMatch : List Char → List Char → Bool
  | [], _ => true
  | _ :: _, [] => false
  | a :: as, b :: bs => (a == b) && leadMatch as bs

/-- `p` occurs somewhere in `s` as a contiguous run. -/
def isSeg (p : List Char) : List Char → Bool
  | [] => p.isEmpty
  | c :: cs => leadMatch p (c :: cs) || isSeg p cs

/-- Substring containment on strings (Python's `needle in hay`). -/
def strContains (hay needle : String) : Bool := isSeg needle.data hay.data

/-- Reference rendering (from the spec's words) of the directional glyph:
chosen by the sign of the impact value. -/
def impactGlyph : Json → String
  | .int i => if 0 < i then "🟢" else if i < 0 then "🔴" else "⚪"
  | .float q => if 0 < q then "🟢" else if q < 0 then "🔴" else "⚪"
  | .bool b => if b then "🟢" else "⚪"
  | _ => "⚪"

/-- Reference rendering (from the spec's words) of the first evidence
string: the first element of the evidence list if any, else empty. -/
def firstEvidence : Json → String
  | .arr (.str s :: _) => s
  | .str s => String.mk (s.data.take 1)
  | _ => ""

/-- Reference rendering (from the spec's words) of one factor line:
glyph by sign of `impact`, then the factor id, then the first evidence
string. -/
def refFactorLine (f : Json) : String :=
  match f with
  | .obj kvs =>
    impactGlyph ((lookupJ "impact" kvs).getD (.int 0)) ++ " " ++
      pyStr ((lookupJ "id" kvs).getD (.str "?")) ++ " — " ++
      firstEvidence ((lookupJ "evidence" kvs).getD (.arr []))
  | _ => ""

/-- The all-zero address used in the spec's examples. -/
def addr0 : String := "0x0000000000000000000000000000000000000000"

/-- The example analyzer response of the spec's testable property on
formatting. -/
def data6 : Json :=
  .obj [("score", .int 87), ("band", .str "A"),
    ("token", .obj [("name", .str "Foo"), ("symbol", .str "FOO"),
      ("address", .str "0xabc...")]),
    ("liquidity", .obj []), ("supply", .obj []), ("factors", .arr [])]

/-- The message the formatter produces for `data6`. -/
def msg6 : String :=
  "*Foo* (FOO)\n`0xabc...`\n\n*Score:* 87  •  *Band:* A\n\n*Key factors:*"

/-- The message the formatter produces when every field is missing. -/
def msgAllMissing : String :=
  "*?* (?)\n`?`\n\n*Score:* ?  •  *Band:* ?\n\n*Key factors:*"

/-- A run of `n` copies of a character class matches exactly the strings
of length `n` all of whose characters are in the class. -/
theorem reFullmatch_replicate (p : Char → Bool) :
    ∀ (n : Nat) (cs : List Char),
      reFullmatch (List.replicate n (.cls p)) cs = true ↔
        cs.length = n ∧ ∀ c ∈ cs, p c = true := by
  intro n
  induction n with
  | zero =>
    intro cs
    cases cs <;> simp [reFullmatch]
  | succ n ih =>
    intro cs
    cases cs with
    | nil => simp [List.replicate_succ, reFullmatch]
    | cons c cs' =>
      simp only [List.replicate_succ, reFullmatch, Bool.and_eq_true, ih,
        List.length_cons, List.mem_cons]
      constructor
      · rintro ⟨hp, hlen, hall⟩
        refine ⟨by omega, ?_⟩
        rintro x (rfl | hx)
        · exact hp
        · exact hall x hx
      · rintro ⟨hlen, hall⟩
        exact ⟨hall c (Or.inl rfl), by omega, fun x hx => hall x (Or.inr hx)⟩

/-- Claim C1: the Address Validator accepts a string iff, after stripping
surrounding whitespace, it is a literal `0x` followed by exactly 40
hexadecimal characters; on any other free text the handler replies with
the format hint (and raises nothing). -/
theorem spec_C1 (s : String) :
    (addressValid s = true ↔
      ∃ u : List Char, pyStrip s.data = '0' :: 'x' :: u ∧
        u.length = 40 ∧ ∀ c ∈ u, isHexDig c = true) ∧
    (∀ (env : Option String) (w : World), addressValid s = false →
      address_msg env (some s) w = ([.reply hintMsg], none)) := by
  constructor
  · unfold addressValid ETH_ADDR_RE
    cases h : pyStrip s.data with
    | nil => simp [reFullmatch]
    | cons c t =>
      cases t with
      | nil => simp [reFullmatch]
      | cons d u =>
        simp only [reFullmatch, Bool.and_eq_true, beq_iff_eq,
          reFullmatch_replicate, List.cons.injEq]
        constructor
        · rintro ⟨rfl, rfl, hlen, hall⟩
          exact ⟨u, ⟨rfl, rfl, rfl⟩, hlen, hall⟩
        · rintro ⟨u', ⟨rfl, rfl, rfl⟩, hlen, hall⟩
          exact ⟨rfl, rfl, hlen, hall⟩
  · intro env w h
    unfold addressValid at h
    unfold address_msg
    simp [h]

/-- Claim C1 witness: the all-zero example address is accepted. -/
theorem spec_C1_witness :
    addressValid addr0 = true :=
  (spec_C1 addr0).1.mpr
    ⟨addr0.data.drop 2, by decide, by decide, by decide⟩

/-- Claim C3: `ping_analyzer` returns `true` exactly when the URL is
configured, `GET /health` returned status 200 and the body parsed to a
dict whose `ok` is literally the boolean `true`; any non-200 status, any
malformed body, and any network exception give `false` (and the function
is total: it never raises). -/
theorem spec_C3 (env : Option String) (w : World) :
    ((ping_analyzer env w).2 = true ↔
      MCA_URL env ≠ "" ∧
        ∃ kvs, w.health = .resp 200 (some (.obj kvs)) ∧
          lookupJ "ok" kvs = some (.bool true)) ∧
    (∀ st b, w.health = .resp st b → st ≠ 200 → (ping_analyzer env w).2 = false) ∧
    (w.health = .exn → (ping_analyzer env w).2 = false) ∧
    (∀ st, w.health = .resp st none → (ping_analyzer env w).2 = false) := by
  unfold ping_analyzer
  by_cases hu : MCA_URL env = ""
  · simp [hu]
  · cases hh : w.health with
    | exn => simp [hu, hh]
    | resp st body =>
      by_cases hst : st = 200
      · subst hst
        refine ⟨?_, ?_, by simp [hu], ?_⟩
        · cases body with
          | none => simp [hu]
          | some j =>
            cases j with
            | obj kvs =>
              cases hok : lookupJ "ok" kvs with
              | none => simp [hu, hok]
              | some v =>
                cases v with
                | bool b => cases b <;> simp [hu, hok]
                | null => simp [hu, hok]
                | int i => simp [hu, hok]
                | float q => simp [hu, hok]
                | str s => simp [hu, hok]
                | arr xs => simp [hu, hok]
                | obj kvs' => simp [hu, hok]
            | null => simp [hu]
            | bool b => simp [hu]
            | int i => simp [hu]
            | float q => simp [hu]
            | str s => simp [hu]
            | arr xs => simp [hu]
        · intro st' b hr hne
          cases hr
          exact absurd rfl hne
        · intro st' hr
          cases hr
          simp [hu]
      · simp [hu, hst]

/-- Claim C3 witness: with a configured URL, a 200 health response whose
`ok` is `true` pings as reachable, and a 503 response does not. -/
theorem spec_C3_witness :
    (ping_analyzer (some "http://a") ⟨.resp 200 (some (.obj [("ok", .bool true)])), .exn⟩).2 = true ∧
    (ping_analyzer (some "http://a") ⟨.resp 503 (some (.obj [("ok", .bool true)])), .exn⟩).2 = false := by
  constructor
  · exact (spec_C3 (some "http://a")
      ⟨.resp 200 (some (.obj [("ok", .bool true)])), .exn⟩).1.mpr
      ⟨by decide, [("ok", .bool true)], rfl, rfl⟩
  · exact (spec_C3 (some "http://a")
      ⟨.resp 503 (some (.obj [("ok", .bool true)])), .exn⟩).2.1
      503 (some (.obj [("ok", .bool true)])) rfl (by decide)

/-- Claim C4: `analyze_address` performs exactly one
`POST <MCA_URL>/analyze` with body fields `chain = "bsc"` and the given
address and a 30-second timeout; it returns the parsed body exactly on a
status-200 response with a parseable body, and `none` on any other
status, unparseable body, or network exception (all exceptions are
caught). -/
theorem spec_C4 (env : Option String) (w : World) (a : String) :
    (analyze_address env w a).1 = [.post (MCA_URL env ++ "/analyze") "bsc" a 30] ∧
    (∀ j, (analyze_address env w a).2 = some j ↔
      w.analyzeResp = .resp 200 (some j)) ∧
    (w.analyzeResp = .exn → (analyze_address env w a).2 = none) ∧
    (∀ st b, w.analyzeResp = .resp st b → st ≠ 200 →
      (analyze_address env w a).2 = none) := by
  refine ⟨rfl, ?_, ?_, ?_⟩
  · intro j
    unfold analyze_address
    cases hr : w.analyzeResp with
    | exn => simp
    | resp st body =>
      by_cases hst : st = 200
      · subst hst
        cases body <;> simp
      · simp [hst]
  · intro hr
    unfold analyze_address
    simp [hr]
  · intro st b hr hne
    unfold analyze_address
    simp [hr, hne]

/-- Claim C4 witness: a 200 response round-trips its body; an exception
yields `none`. -/
theorem spec_C4_witness :
    (analyze_address (some "http://a") ⟨.exn, .resp 200 (some (.int 5))⟩ addr0).2 = some (.int 5) ∧
    (analyze_address (some "http://a") ⟨.exn, .exn⟩ addr0).2 = none := by
  constructor
  · exact ((spec_C4 (some "http://a") ⟨.exn, .resp 200 (some (.int 5))⟩ addr0).2.1 (.int 5)).mpr rfl
  · exact (spec_C4 (some "http://a") ⟨.exn, .exn⟩ addr0).2.2.1 rfl

/-- Claim C9: with `MCA_URL` unset or empty, `ping_analyzer` returns
`false` with no outbound request at all, and `/status` replies that the
analyzer is not reachable. -/
theorem spec_C9 (env : Option String) (w : World)
    (h : env = none ∨ env = some "") :
    ping_analyzer env w = ([], false) ∧
    status_cmd env w = [.reply statusDownMsg] := by
  have hu : MCA_URL env = "" := by
    rcases h with rfl | rfl <;> rfl
  have hp : ping_analyzer env w = ([], false) := by
    unfold ping_analyzer
    simp [hu]
  refine ⟨hp, ?_⟩
  unfold status_cmd
  rw [hp]
  simp

/-- Claim C9 witness: both the unset and the empty environment value give
an unreachable report without a request. -/
theorem spec_C9_witness :
    (ping_analyzer none ⟨.resp 200 (some (.obj [("ok", .bool true)])), .exn⟩ = ([], false) ∧
      status_cmd none ⟨.resp 200 (some (.obj [("ok", .bool true)])), .exn⟩ = [.reply statusDownMsg]) ∧
    ping_analyzer (some "") ⟨.exn, .exn⟩ = ([], false) := by
  exact ⟨spec_C9 none _ (Or.inl rfl), (spec_C9 (some "") ⟨.exn, .exn⟩ (Or.inr rfl)).1⟩

/-- Claim C10: a present-but-falsy analyzer body on HTTP 200 (empty dict,
`0`, `null`, empty list, ...) is handled exactly like an absent result:
the handler replies with the generic failure message and never reaches
the formatter. -/
theorem spec_C10 (env txt : Option String) (w : World) (j : Json)
    (hv : addressValid (txt.getD "") = true)
    (hr : w.analyzeResp = .resp 200 (some j))
    (hf : j.truthy = false) :
    address_msg env txt w =
      ([.reply analyzingMsg,
        .post (MCA_URL env ++ "/analyze") "bsc"
          (String.mk (pyStrip (txt.getD "").data)) 30,
        .reply failMsg], none) := by
  unfold addressValid at hv
  unfold address_msg analyze_address
  simp [hv, hr, hf]

/-- Claim C10 witness: a 200 response whose body is the empty JSON object
gets the generic failure reply. -/
theorem spec_C10_witness :
    address_msg (some "http://a") (some addr0) ⟨.exn, .resp 200 (some (.obj []))⟩ =
      ([.reply analyzingMsg,
        .post (MCA_URL (some "http://a") ++ "/analyze") "bsc"
          (String.mk (pyStrip ((some addr0).getD "").data)) 30,
        .reply failMsg], none) :=
  spec_C10 (some "http://a") (some addr0) ⟨.exn, .resp 200 (some (.obj []))⟩
    (.obj []) (by decide) rfl rfl

/-- On glyph-safe impact values the glyph conditional succeeds and agrees
with the sign-based reference glyph. -/
theorem glyph_ok (v : Json) (h : wfNum v = true) :
    glyph v = .ok (impactGlyph v) := by
  cases v with
  | int i =>
    simp only [glyph, pyCmpGtZ, pyCmpLtZ, impactGlyph, bind, Except.bind,
      decide_eq_true_eq]
    split_ifs <;> rfl
  | float q =>
    simp only [glyph, pyCmpGtZ, pyCmpLtZ, impactGlyph, bind, Except.bind,
      decide_eq_true_eq]
    split_ifs <;> rfl
  | bool b =>
    cases b <;> rfl
  | null => simp [wfNum] at h
  | str s => simp [wfNum] at h
  | arr xs => simp [wfNum] at h
  | obj kvs => simp [wfNum] at h

/-- On well-formed evidence values the evidence expression succeeds and
agrees with the first-evidence reference. -/
theorem evStr_ok (v : Json) (h : wfEvid v = true) :
    evStr v = .ok (firstEvidence v) := by
  cases v with
  | arr xs =>
    cases xs with
    | nil => rfl
    | cons x rest =>
      cases x with
      | str s => rfl
      | null => simp [wfEvid] at h
      | bool b => simp [wfEvid] at h
      | int i => simp [wfEvid] at h
      | float q => simp [wfEvid] at h
      | arr ys => simp [wfEvid] at h
      | obj kvs => simp [wfEvid] at h
  | str s => rfl
  | null => simp [wfEvid] at h
  | bool b => simp [wfEvid] at h
  | int i => simp [wfEvid] at h
  | float q => simp [wfEvid] at h
  | obj kvs => simp [wfEvid] at h

/-- On well-formed factor entries the loop body succeeds and agrees with
the reference factor line. -/
theorem factorLine_ok (f : Json) (h : wfFactor f = true) :
    factorLine f = .ok (refFactorLine f) := by
  cases f with
  | obj kvs =>
    rw [wfFactor] at h
    obtain ⟨hn, he⟩ := Bool.and_eq_true_iff.mp h
    simp only [factorLine, pyGetD, refFactorLine, bind, Except.bind,
      glyph_ok _ hn, evStr_ok _ he]
  | null => simp [wfFactor] at h
  | bool b => simp [wfFactor] at h
  | int i => simp [wfFactor] at h
  | float q => simp [wfFactor] at h
  | str s => simp [wfFactor] at h
  | arr xs => simp [wfFactor] at h

/-- Iterating a loop body that succeeds on every element succeeds with
the mapped results. -/
theorem eachLine_ok (l : List Json)
    (h : ∀ f ∈ l, factorLine f = .ok (refFactorLine f)) :
    eachLine factorLine l = .ok (l.map refFactorLine) := by
  induction l with
  | nil => rfl
  | cons f fs ih =>
    simp only [eachLine, h f (List.mem_cons_self f fs), bind, Except.bind,
      ih (fun g hg => h g (List.mem_cons_of_mem f hg)), List.map]

/-- The factor loop on a list of factors well formed in its first five
entries yields exactly the reference lines of those entries. -/
theorem factorLines_ok (fs : List Json)
    (h : ∀ f ∈ fs.take 5, wfFactor f = true) :
    factorLines (.arr fs) = .ok ((fs.take 5).map refFactorLine) := by
  rw [factorLines]
  exact eachLine_ok _ (fun f hf => factorLine_ok f (h f hf))

/-- `nice_pct` succeeds on every value it is given under a well-formed
supply object. -/
theorem nice_pct_ok (v : Json) (h : wfPctV v = true) :
    ∃ s, nice_pct v = .ok s := by
  cases v with
  | null => exact ⟨_, rfl⟩
  | int i => exact ⟨_, rfl⟩
  | float q => exact ⟨_, rfl⟩
  | bool b => exact ⟨_, rfl⟩
  | str s => simp [wfPctV] at h
  | arr xs => simp [wfPctV] at h
  | obj kvs => simp [wfPctV] at h

/-- The liquidity block never raises when the liquidity value is falsy or
a dict. -/
theorem liqLines_ok (l : Json)
    (h : (!l.truthy ||
      (match l with
        | .obj _ => true
        | _ => false)) = true) :
    ∃ L, liqLines l = .ok L := by
  rw [Bool.or_eq_true_iff] at h
  rcases h with h | h
  · rw [Bool.not_eq_true'] at h
    exact ⟨[], by rw [liqLines, if_pos h]⟩
  · cases l with
    | obj kvs =>
      by_cases ht : (Json.obj kvs).truthy = false
      · exact ⟨[], by rw [liqLines, if_pos ht]⟩
      · rw [liqLines, if_neg ht]
        simp only [pyGetD, bind, Except.bind]
        exact ⟨_, rfl⟩
    | null => simp at h
    | bool b => simp at h
    | int i => simp at h
    | float q => simp at h
    | str s => simp at h
    | arr xs => simp at h

/-- The supply block never raises when the supply value is falsy or a
well-formed dict. -/
theorem supplyLines_ok (s : Json)
    (h : (!s.truthy || wfSupplyObj s) = true) :
    ∃ L, supplyLines s = .ok L := by
  rw [Bool.or_eq_true_iff] at h
  rcases h with h | h
  · rw [Bool.not_eq_true'] at h
    exact ⟨[], by rw [supplyLines, if_pos h]⟩
  · cases s with
    | obj kvs =>
      rw [wfSupplyObj] at h
      obtain ⟨hd, h10⟩ := Bool.and_eq_true_iff.mp h
      obtain ⟨ds, hds⟩ := nice_pct_ok _ hd
      obtain ⟨ts, hts⟩ := nice_pct_ok _ h10
      by_cases ht : (Json.obj kvs).truthy = false
      · exact ⟨[], by rw [supplyLines, if_pos ht]⟩
      · rw [supplyLines, if_neg ht]
        simp only [pyGetD, bind, Except.bind, hds, hts]
        exact ⟨_, rfl⟩
    | null => simp [wfSupplyObj] at h
    | bool b => simp [wfSupplyObj] at h
    | int i => simp [wfSupplyObj] at h
    | float q => simp [wfSupplyObj] at h
    | str s2 => simp [wfSupplyObj] at h
    | arr xs => simp [wfSupplyObj] at h

/-- Evaluation of the `lines` list on a dict response, given the token
dict and the results of the three sub-blocks. -/
theorem buildLines_obj (kvs tkvs : List (String × Json)) (FL LL SL : List String)
    (ht : (lookupJ "token" kvs).getD (.obj []) = .obj tkvs)
    (hF : factorLines (if ((lookupJ "factors" kvs).getD (.arr [])).truthy
        then (lookupJ "factors" kvs).getD (.arr []) else .arr []) = .ok FL)
    (hL : liqLines (if ((lookupJ "liquidity" kvs).getD (.obj [])).truthy
        then (lookupJ "liquidity" kvs).getD (.obj []) else .obj []) = .ok LL)
    (hS : supplyLines (if ((lookupJ "supply" kvs).getD (.obj [])).truthy
        then (lookupJ "supply" kvs).getD (.obj []) else .obj []) = .ok SL) :
    buildLines (.obj kvs) = .ok
      (["*" ++ pyStr ((lookupJ "name" tkvs).getD (.str "?")) ++ "* (" ++
          pyStr ((lookupJ "symbol" tkvs).getD (.str "?")) ++ ")",
        "`" ++ pyStr ((lookupJ "address" tkvs).getD (.str "?")) ++ "`",
        "",
        "*Score:* " ++ pyStr ((lookupJ "score" kvs).getD (.str "?")) ++
          "  •  *Band:* " ++ pyStr ((lookupJ "band" kvs).getD (.str "?")),
        "",
        "*Key factors:*"] ++ FL ++ LL ++ SL) := by
  simp only [buildLines, pyGetD, bind, Except.bind, ht, hF, hL, hS]

/-- The formatter renders every well-formed analyzer response without
raising. -/
theorem buildMessage_ok (j : Json) (h : wfResp j = true) :
    ∃ m, buildMessage j = .ok m := by
  cases j with
  | obj kvs =>
    rw [wfResp] at h
    simp only [Bool.and_eq_true] at h
    obtain ⟨⟨⟨htok, hliq⟩, hsup⟩, hfac⟩ := h
    obtain ⟨tkvs, ht⟩ :
        ∃ tkvs, (lookupJ "token" kvs).getD (.obj []) = .obj tkvs := by
      cases hc : (lookupJ "token" kvs).getD (.obj []) <;>
        rw [hc] at htok <;> first | exact ⟨_, rfl⟩ | simp at htok
    obtain ⟨FL, hF⟩ :
        ∃ FL, factorLines (if ((lookupJ "factors" kvs).getD (.arr [])).truthy
          then (lookupJ "factors" kvs).getD (.arr []) else .arr []) = .ok FL := by
      by_cases hft : ((lookupJ "factors" kvs).getD (.arr [])).truthy = true
      · rw [if_pos hft]
        rw [hft] at hfac
        simp only [Bool.not_true, Bool.false_or] at hfac
        cases hc : (lookupJ "factors" kvs).getD (.arr []) <;> rw [hc] at hfac <;>
          first
          | (exact ⟨_, factorLines_ok _ (fun f hf =>
              List.all_eq_true.mp hfac f hf)⟩)
          | simp at hfac
      · rw [if_neg hft]
        exact ⟨[], rfl⟩
    obtain ⟨LL, hL⟩ :
        ∃ LL, liqLines (if ((lookupJ "liquidity" kvs).getD (.obj [])).truthy
          then (lookupJ "liquidity" kvs).getD (.obj []) else .obj []) = .ok LL := by
      by_cases hlt : ((lookupJ "liquidity" kvs).getD (.obj [])).truthy = true
      · rw [if_pos hlt]
        rw [hlt] at hliq
        simp only [Bool.not_true, Bool.false_or] at hliq
        exact liqLines_ok _ (by rw [hliq, Bool.or_true])
      · rw [if_neg hlt]
        exact ⟨[], rfl⟩
    obtain ⟨SL, hS⟩ :
        ∃ SL, supplyLines (if ((lookupJ "supply" kvs).getD (.obj [])).truthy
          then (lookupJ "supply" kvs).getD (.obj []) else .obj []) = .ok SL := by
      by_cases hst : ((lookupJ "supply" kvs).getD (.obj [])).truthy = true
      · rw [if_pos hst]
        rw [hst] at hsup
        simp only [Bool.not_true, Bool.false_or] at hsup
        exact supplyLines_ok _ (by rw [hsup, Bool.or_true])
      · rw [if_neg hst]
        exact ⟨[], rfl⟩
    exact ⟨_, by rw [buildMessage, buildLines_obj kvs tkvs FL LL SL ht hF hL hS]; rfl⟩
  | null => simp [wfResp] at h
  | bool b => simp [wfResp] at h
  | int i => simp [wfResp] at h
  | float q => simp [wfResp] at h
  | str s => simp [wfResp] at h
  | arr xs => simp [wfResp] at h

/-- The value returned by the analyze call is `some j` exactly for a
status-200 response with body `j` (helper shared by several claims). -/
theorem analyze_value_eq (env : Option String) (w : World) (a : String) (j : Json) :
    (analyze_address env w a).2 = some j ↔ w.analyzeResp = .resp 200 (some j) := by
  unfold analyze_address
  cases hr : w.analyzeResp with
  | exn => simp
  | resp st body =>
    by_cases hst : st = 200
    · subst hst
      cases body <;> simp
    · simp [hst]

/-- Full case analysis of the free-text handler: the format hint on
invalid input; otherwise the acknowledgement, exactly one POST, and then
either the failure reply (absent or falsy analyzer value) or the
formatted message (truthy value the formatter accepts). -/
theorem address_msg_eval (env txt : Option String) (w : World) :
    (addressValid (txt.getD "") = false →
      address_msg env txt w = ([.reply hintMsg], none)) ∧
    (addressValid (txt.getD "") = true →
      ((analyze_address env w (String.mk (pyStrip (txt.getD "").data))).2 = none ∨
          (∃ j, (analyze_address env w (String.mk (pyStrip (txt.getD "").data))).2 = some j ∧
            j.truthy = false) →
        address_msg env txt w = ([.reply analyzingMsg,
          .post (MCA_URL env ++ "/analyze") "bsc" (String.mk (pyStrip (txt.getD "").data)) 30,
          .reply failMsg], none)) ∧
      (∀ j m, (analyze_address env w (String.mk (pyStrip (txt.getD "").data))).2 = some j →
        j.truthy = true → buildMessage j = .ok m →
        address_msg env txt w = ([.reply analyzingMsg,
          .post (MCA_URL env ++ "/analyze") "bsc" (String.mk (pyStrip (txt.getD "").data)) 30,
          .reply m], none)) ∧
      (∀ j e, (analyze_address env w (String.mk (pyStrip (txt.getD "").data))).2 = some j →
        j.truthy = true → buildMessage j = .error e →
        address_msg env txt w = ([.reply analyzingMsg,
          .post (MCA_URL env ++ "/analyze") "bsc" (String.mk (pyStrip (txt.getD "").data)) 30],
          some e))) := by
  constructor
  · intro h
    unfold addressValid at h
    unfold address_msg
    rw [if_pos h]
  · intro hv
    have hvne : ¬(reFullmatch ETH_ADDR_RE (pyStrip (txt.getD "").data) = false) := by
      unfold addressValid at hv
      simp [hv]
    refine ⟨?_, ?_, ?_⟩
    · intro habs
      cases hresp : w.analyzeResp with
      | exn => simp [address_msg, analyze_address, hresp, hvne]
      | resp st body =>
        by_cases hst : st = 200
        · subst hst
          cases body with
          | none => simp [address_msg, analyze_address, hresp, hvne]
          | some j =>
            have hf : j.truthy = false := by
              rcases habs with h | ⟨j', hj', hf'⟩
              · simp [analyze_address, hresp] at h
              · simp [analyze_address, hresp] at hj'
                rw [← hj'] at hf'
                exact hf'
            simp [address_msg, analyze_address, hresp, hvne, hf]
        · simp [address_msg, analyze_address, hresp, hvne, hst]
    · intro j m hj ht hm
      rw [analyze_value_eq] at hj
      simp [address_msg, analyze_address, hj, hvne, ht, hm]
    · intro j e hj ht he
      rw [analyze_value_eq] at hj
      simp [address_msg, analyze_address, hj, hvne, ht, he]

/-- Claim C2 counterexample: a 200 analyzer response whose JSON body is
the non-dict list `[1]` makes `address_msg` raise `AttributeError`
(at `data.get("token", ...)`) after the acknowledgement and the POST,
with no final reply: the handler path neither stays exception-free nor
ends in a reply. -/
theorem spec_C2_counterexample :
    address_msg (some "http://a") (some addr0)
        ⟨.exn, .resp 200 (some (.arr [.int 1]))⟩ =
      ([.reply analyzingMsg, .post "http://a/analyze" "bsc" addr0 30],
        some .attrError) ∧
    (address_msg (some "http://a") (some addr0)
        ⟨.exn, .resp 200 (some (.arr [.int 1]))⟩).2 ≠ none := by
  constructor
  · rfl
  · intro h
    exact Option.noConfusion h

/-- Claim C2, amended: provided every truthy 200 JSON body is a
well-formed dict (`wfResp`), no handler raises and every handler path
ends with a final reply; without that proviso `address_msg` can raise
(see the counterexample). -/
theorem spec_C2_amended (env txt : Option String) (w : World)
    (hw : ∀ j, w.analyzeResp = .resp 200 (some j) → j.truthy = true →
      wfResp j = true) :
    start_cmd = [.reply HELP_TEXT] ∧
    help_cmd = [.reply HELP_TEXT] ∧
    (∃ s pre, status_cmd env w = pre ++ [.reply s]) ∧
    (address_msg env txt w).2 = none ∧
    (∃ s pre, (address_msg env txt w).1 = pre ++ [.reply s]) := by
  refine ⟨rfl, rfl, ⟨_, _, rfl⟩, ?_⟩
  by_cases hv : addressValid (txt.getD "") = false
  · rw [(address_msg_eval env txt w).1 hv]
    exact ⟨rfl, hintMsg, [], rfl⟩
  · have hvt : addressValid (txt.getD "") = true := by
      cases hb : addressValid (txt.getD "") with
      | false => exact absurd hb hv
      | true => rfl
    obtain ⟨hfail, hok, _⟩ := (address_msg_eval env txt w).2 hvt
    cases hval : (analyze_address env w (String.mk (pyStrip (txt.getD "").data))).2 with
    | none =>
      rw [hfail (Or.inl hval)]
      exact ⟨rfl, failMsg, [_, _], rfl⟩
    | some j =>
      by_cases ht : j.truthy = true
      · have hwf : wfResp j = true :=
          hw j ((analyze_value_eq env w _ j).mp hval) ht
        obtain ⟨m, hm⟩ := buildMessage_ok j hwf
        rw [hok j m hval ht hm]
        exact ⟨rfl, m, [_, _], rfl⟩
      · have ht' : j.truthy = false := by
          cases hb : j.truthy with
          | false => rfl
          | true => exact absurd hb ht
        rw [hfail (Or.inr ⟨j, hval, ht'⟩)]
        exact ⟨rfl, failMsg, [_, _], rfl⟩

/-- Claim C2 amended witness: against a network that always fails, every
handler finishes without an exception and ends in a reply. -/
theorem spec_C2_amended_witness :
    start_cmd = [.reply HELP_TEXT] ∧
    help_cmd = [.reply HELP_TEXT] ∧
    (∃ s pre, status_cmd none ⟨.exn, .exn⟩ = pre ++ [.reply s]) ∧
    (address_msg none (some addr0) ⟨.exn, .exn⟩).2 = none ∧
    (∃ s pre, (address_msg none (some addr0) ⟨.exn, .exn⟩).1 = pre ++ [.reply s]) :=
  spec_C2_amended none (some addr0) ⟨.exn, .exn⟩ (fun _ h _ => Net.noConfusion h)

/-- Claim C5 counterexample: on a 200 response with the (falsy, but
present) body `\x7b\x7d`, `analyze_address` returns a value, yet the bot
replies with the generic failure message and not with the formatted
result of that value. -/
theorem spec_C5_counterexample :
    (analyze_address (some "http://a") ⟨.exn, .resp 200 (some (.obj []))⟩ addr0).2 =
      some (.obj []) ∧
    address_msg (some "http://a") (some addr0) ⟨.exn, .resp 200 (some (.obj []))⟩ =
      ([.reply analyzingMsg, .post "http://a/analyze" "bsc" addr0 30,
        .reply failMsg], none) ∧
    buildMessage (.obj []) = .ok msgAllMissing ∧
    failMsg ≠ msgAllMissing := by
  refine ⟨rfl, rfl, rfl, ?_⟩
  intro h
  exact absurd (congrArg String.length h) (by decide)

/-- Claim C5, amended: an invalid text gets the format hint and no
outbound call; a valid address gets the acknowledgement, exactly one
analyze call, then the failure reply when the analyzer value is absent
or falsy, and the formatted result when it is truthy (and well-typed). -/
theorem spec_C5_amended (env txt : Option String) (w : World) :
    (addressValid (txt.getD "") = false →
      address_msg env txt w = ([.reply hintMsg], none)) ∧
    (addressValid (txt.getD "") = true →
      ((analyze_address env w (String.mk (pyStrip (txt.getD "").data))).2 = none ∨
          (∃ j, (analyze_address env w (String.mk (pyStrip (txt.getD "").data))).2 = some j ∧
            j.truthy = false) →
        address_msg env txt w = ([.reply analyzingMsg,
          .post (MCA_URL env ++ "/analyze") "bsc" (String.mk (pyStrip (txt.getD "").data)) 30,
          .reply failMsg], none)) ∧
      (∀ j m, (analyze_address env w (String.mk (pyStrip (txt.getD "").data))).2 = some j →
        j.truthy = true → buildMessage j = .ok m →
        address_msg env txt w = ([.reply analyzingMsg,
          .post (MCA_URL env ++ "/analyze") "bsc" (String.mk (pyStrip (txt.getD "").data)) 30,
          .reply m], none))) :=
  ⟨(address_msg_eval env txt w).1,
    fun hv => ⟨((address_msg_eval env txt w).2 hv).1,
      ((address_msg_eval env txt w).2 hv).2.1⟩⟩

/-- Claim C5 amended witness: an invalid text gets the hint with no
outbound call, and a valid address against a failing network gets the
acknowledgement, the POST, and the failure reply. -/
theorem spec_C5_amended_witness :
    address_msg none (some "0xZZZ") ⟨.exn, .exn⟩ = ([.reply hintMsg], none) ∧
    address_msg none (some addr0) ⟨.exn, .exn⟩ =
      ([.reply analyzingMsg,
        .post (MCA_URL none ++ "/analyze") "bsc"
          (String.mk (pyStrip ((some addr0).getD "").data)) 30,
        .reply failMsg], none) := by
  constructor
  · exact (spec_C5_amended none (some "0xZZZ") ⟨.exn, .exn⟩).1 (by decide)
  · exact ((spec_C5_amended none (some addr0) ⟨.exn, .exn⟩).2 (by decide)).1 (Or.inl rfl)

/-- Claim C6 counterexample: on the spec's example response the raw
formatted text does not contain the bare fragments "Foo (FOO)",
"Score: 87" or "Band: A" — the markdown bold markers interleave
(the title line is `*Foo* (FOO)`, the score line `*Score:* 87`). -/
theorem spec_C6_counterexample :
    buildMessage data6 = .ok msg6 ∧
    strContains msg6 "Foo (FOO)" = false ∧
    strContains msg6 "Score: 87" = false ∧
    strContains msg6 "Band: A" = false :=
  ⟨rfl, rfl, rfl, rfl⟩

/-- Claim C6, amended: on the spec's example response the formatted
output contains the claimed fragments with the markdown bold markers in
place — "*Foo* (FOO)", "*Score:* 87", "*Band:* A" — and omits the
liquidity and the supply block entirely (both source objects being
empty). -/
theorem spec_C6 :
    buildMessage data6 = .ok msg6 ∧
    strContains msg6 "*Foo* (FOO)" = true ∧
    strContains msg6 "*Score:* 87" = true ∧
    strContains msg6 "*Band:* A" = true ∧
    strContains msg6 "Liquidity" = false ∧
    strContains msg6 "Supply" = false :=
  ⟨rfl, rfl, rfl, rfl, rfl, rfl⟩

/-- Claim C7: the factor section lists exactly the first five factors
(min(n,5) lines), in list order, each rendered as the sign-chosen glyph,
the factor id, and the first evidence string; the three glyphs are
pairwise distinct. -/
theorem spec_C7 (fs : List Json)
    (h : ∀ f ∈ fs.take 5, wfFactor f = true) :
    factorLines (.arr fs) = .ok ((fs.take 5).map refFactorLine) ∧
    (∀ L, factorLines (.arr fs) = .ok L → L.length = min fs.length 5) ∧
    (∀ i : Int, 0 < i → impactGlyph (.int i) = "🟢") ∧
    (∀ i : Int, i < 0 → impactGlyph (.int i) = "🔴") ∧
    impactGlyph (.int 0) = "⚪" ∧
    (("🟢" : String) ≠ "🔴" ∧ ("🟢" : String) ≠ "⚪" ∧ ("🔴" : String) ≠ "⚪") := by
  refine ⟨factorLines_ok fs h, ?_, ?_, ?_, rfl, by decide⟩
  · intro L hL
    rw [factorLines_ok fs h] at hL
    cases hL
    rw [List.length_map, List.length_take, Nat.min_comm]
  · intro i hi
    simp [impactGlyph, hi]
  · intro i hi
    have : ¬(0 < i) := by omega
    simp [impactGlyph, hi, this]

/-- The seven-factor example list of the spec's testable property. -/
def factors7 : List Json :=
  [.obj [("id", .str "f1"), ("impact", .int 3), ("evidence", .arr [.str "e1"])],
   .obj [("id", .str "f2"), ("impact", .int (-2))],
   .obj [("id", .str "f3"), ("impact", .int 0)],
   .obj [("id", .str "f4"), ("impact", .float (mkRat 5 2))],
   .obj [("id", .str "f5")],
   .obj [("id", .str "f6"), ("impact", .int 1)],
   .obj [("id", .str "f7"), ("impact", .int (-1))]]

/-- Claim C7 witness: with seven factors, exactly the first five are
listed. -/
theorem spec_C7_witness :
    factorLines (.arr factors7) = .ok ((factors7.take 5).map refFactorLine) ∧
    ∀ L, factorLines (.arr factors7) = .ok L → L.length = min factors7.length 5 := by
  have h := spec_C7 factors7 (by decide)
  exact ⟨h.1, h.2.1⟩

/-- Claim C8: missing fields render as literal placeholders instead of
raising — `nice_pct` maps `None` to the em dash and `12.3` to `12.30%`;
a response missing every field renders the all-placeholder message, a
present token dict missing its fields likewise, and truthy supply and
liquidity dicts missing their fields render the dash/`?`/`0` defaults. -/
theorem spec_C8 :
    nice_pct .null = .ok "—" ∧
    nice_pct (.float (mkRat 123 10)) = .ok "12.30%" ∧
    (∀ kvs, lookupJ "token" kvs = none → lookupJ "liquidity" kvs = none →
      lookupJ "supply" kvs = none → lookupJ "factors" kvs = none →
      lookupJ "score" kvs = none → lookupJ "band" kvs = none →
      buildMessage (.obj kvs) = .ok msgAllMissing) ∧
    (∀ tkvs, lookupJ "name" tkvs = none → lookupJ "symbol" tkvs = none →
      lookupJ "address" tkvs = none →
      buildMessage (.obj [("token", .obj tkvs)]) = .ok msgAllMissing) ∧
    (∀ skvs, (Json.obj skvs).truthy = true → lookupJ "total" skvs = none →
      lookupJ "dead_wallet_pct" skvs = none → lookupJ "top10_pct" skvs = none →
      supplyLines (.obj skvs) =
        .ok ["", "*Supply:*", "Total: —", "Dead wallet: —", "Top10: —"]) ∧
    (∀ lkvs, (Json.obj lkvs).truthy = true → lookupJ "dex" lkvs = none →
      lookupJ "pair" lkvs = none → lookupJ "lp_locked_pct" lkvs = none →
      lookupJ "locker" lkvs = none →
      liqLines (.obj lkvs) =
        .ok ["", "*Liquidity:*", "DEX: ?", "Pair: `—`", "LP locked: 0% via —"]) := by
  refine ⟨rfl, rfl, ?_, ?_, ?_, ?_⟩
  · intro kvs h1 h2 h3 h4 h5 h6
    have ht : (lookupJ "token" kvs).getD (.obj []) = .obj [] := by
      rw [h1]
      rfl
    rw [buildMessage,
      buildLines_obj kvs [] [] [] [] ht (by rw [h4]; rfl) (by rw [h2]; rfl)
        (by rw [h3]; rfl),
      h5, h6]
    rfl
  · intro tkvs h1 h2 h3
    rw [buildMessage, buildLines_obj [("token", .obj tkvs)] tkvs [] [] [] rfl rfl rfl rfl, h1, h2, h3]
    rfl
  · intro skvs ht h1 h2 h3
    rw [supplyLines, if_neg (by rw [ht]; exact Bool.noConfusion)]
    simp only [pyGetD, bind, Except.bind, h1, h2, h3, Option.getD_none, nice_pct]
    rfl
  · intro lkvs ht h1 h2 h3 h4
    rw [liqLines, if_neg (by rw [ht]; exact Bool.noConfusion)]
    simp only [pyGetD, bind, Except.bind, h1, h2, h3, h4, Option.getD_none]
    rfl

/-- Claim C8 witness: concrete responses with the fields missing render
the placeholder texts. -/
theorem spec_C8_witness :
    buildMessage (.obj [("note", .null)]) = .ok msgAllMissing ∧
    buildMessage (.obj [("token", .obj [("extra", .int 1)])]) = .ok msgAllMissing ∧
    supplyLines (.obj [("extra", .int 1)]) =
      .ok ["", "*Supply:*", "Total: —", "Dead wallet: —", "Top10: —"] ∧
    liqLines (.obj [("extra", .int 1)]) =
      .ok ["", "*Liquidity:*", "DEX: ?", "Pair: `—`", "LP locked: 0% via —"] :=
  ⟨spec_C8.2.2.1 _ rfl rfl rfl rfl rfl rfl,
   spec_C8.2.2.2.1 _ rfl rfl rfl,
   spec_C8.2.2.2.2.1 _ rfl rfl rfl rfl,
   spec_C8.2.2.2.2.2 _ rfl rfl rfl rfl rfl⟩
